import Mathlib

/-!
Shallow embedding of the IndexDB-Cache library (src/src/index.ts).

The library wraps the browser IndexedDB engine in a TTL-aware key-value
cache.  We model:

* the TTL inputs a caller may pass (a Date, which carries an absolute
  epoch-milliseconds instant, or a number, which is a duration unless
  negative) and the resolution function formatTtl;
* the JavaScript truthiness-based default-TTL resolution
  (opts.defaultTtl || cacheOpts.defaultTtl);
* the persisted record shape CacheStoreItem {value, ttl}, where the
  stored value may be null/undefined (modelled as Option) and the stored
  ttl field may fail the typeof-number check (constructor notNum);
* the per-collection handle operations set/get/remove/clear/count/
  entries/close over an explicit state (a connection-open flag plus the
  collection contents as an association list), with the current time
  passed explicitly where the source calls Date.now();
* the connection initializer initDB as a decision function over the
  abstract engine state (schema version plus the set of object-store
  names), returning which of its four paths is taken.

Errors are modelled with an Except result; an error result corresponds
to a rejected promise, and by construction of each operation the stored
contents are untouched on every error path, mirroring that the source
rejects before issuing the engine request.
-/

namespace IndexDBCache

/-- TTL argument as the caller may supply it: a Date object (absolute
epoch-ms instant) or a plain number. -/
inductive TtlInput where
  | date (t : Int)
  | num (n : Int)
deriving DecidableEq, Repr

/-- The ttl field of a persisted record, as found at read time: either a
number, or anything that fails the typeof-number check in get. -/
inductive JsTtl where
  | num (t : Int)
  | notNum
deriving DecidableEq, Repr

/-- Persisted record shape: value plus ttl.  A stored value of none
models a persisted null/undefined. -/
structure CacheStoreItem (V : Type) where
  value : Option V
  ttl : JsTtl
deriving DecidableEq, Repr

/-- State of one collection handle: whether the db variable is still
non-null, and the collection contents keyed uniquely. -/
structure CacheState (K V : Type) where
  dbOpen : Bool
  store : List (K × CacheStoreItem V)
deriving DecidableEq, Repr

/-- Per-collection configuration captured by generateCacheStore: the
optional validator (applied to the raw stored value, which may be null)
and the resolved default TTL. -/
structure StoreConfig (V : Type) where
  validate : Option (Option V → Bool)
  defaultTtl : Option TtlInput

/-- Errors a handle operation can reject with. -/
inductive CacheError where
  | noTtl
  | closed
deriving DecidableEq, Repr

/-- Translation of formatTtl: scan the supplied values in order; a Date
yields its absolute instant, a negative number is returned unchanged,
any other number becomes now + duration; if nothing applies the result
is undefined. -/
def formatTtl (now : Int) : List (Option TtlInput) → Option Int
  | [] => none
  | none :: rest => formatTtl now rest
  | some (TtlInput.date t) :: _ => some t
  | some (TtlInput.num n) :: _ => if n < 0 then some n else some (now + n)

/-- JavaScript truthiness of a defaultTtl option: undefined and the
number 0 are falsy; a Date object and any non-zero number are truthy. -/
def ttlTruthy : Option TtlInput → Bool
  | none => false
  | some (TtlInput.num 0) => false
  | some _ => true

/-- Translation of the default resolution opts.defaultTtl ||
cacheOpts.defaultTtl in generateCacheStore. -/
def storeDefault (collOpt cacheOpt : Option TtlInput) : Option TtlInput :=
  if ttlTruthy collOpt then collOpt else cacheOpt

/-- Lookup of a key in the collection contents. -/
def lookupItem {K V : Type} [DecidableEq K] (key : K) :
    List (K × CacheStoreItem V) → Option (CacheStoreItem V)
  | [] => none
  | (k, it) :: rest => if k = key then some it else lookupItem key rest

/-- Deletion of a key from the collection contents (store.delete). -/
def eraseKey {K V : Type} [DecidableEq K] (key : K) :
    List (K × CacheStoreItem V) → List (K × CacheStoreItem V)
  | [] => []
  | (k, it) :: rest =>
    if k = key then eraseKey key rest else (k, it) :: eraseKey key rest

/-- Insertion with overwrite (store.put): any previous record for the
key is replaced. -/
def putItem {K V : Type} [DecidableEq K] (key : K) (item : CacheStoreItem V)
    (s : List (K × CacheStoreItem V)) : List (K × CacheStoreItem V) :=
  eraseKey key s ++ [(key, item)]

/-- Expiry test exactly as written on the read path of get:
result.ttl >= 0 && result.ttl < Date.now(). -/
def expiredAt (t now : Int) : Bool :=
  decide (0 ≤ t) && decide (t < now)

/-- Validator rejection exactly as written in get:
opts.validate && !opts.validate(result.value). -/
def rejects {V : Type} (cfg : StoreConfig V) (v : Option V) : Bool :=
  match cfg.validate with
  | some f => !f v
  | none => false

/-- Translation of set: resolve the TTL from the per-call value then the
store default; reject with noTtl if unresolved; then reject with closed
if the connection was closed; otherwise persist {ttl, value} under the
key.  The order of the two rejection checks follows the source. -/
def setOp {K V : Type} [DecidableEq K] (cfg : StoreConfig V)
    (st : CacheState K V) (now : Int) (key : K) (value : Option V)
    (ttl : Option TtlInput) : Except CacheError (CacheState K V) :=
  match formatTtl now [ttl, cfg.defaultTtl] with
  | none => Except.error CacheError.noTtl
  | some t =>
    if st.dbOpen then
      Except.ok { st with store := putItem key ⟨value, JsTtl.num t⟩ st.store }
    else
      Except.error CacheError.closed

/-- Translation of get: closed check first; an absent record resolves
null; a present record is checked in order — non-numeric ttl (delete,
null), expired ttl (null, no delete), validator rejection (delete,
null), null/undefined value (delete, null) — otherwise the stored value
is returned.  The result carries the possibly self-healed state. -/
def getOp {K V : Type} [DecidableEq K] (cfg : StoreConfig V)
    (st : CacheState K V) (now : Int) (key : K) :
    Except CacheError (Option V × CacheState K V) :=
  if st.dbOpen then
    match lookupItem key st.store with
    | none => Except.ok (none, st)
    | some item =>
      match item.ttl with
      | JsTtl.notNum =>
        Except.ok (none, { st with store := eraseKey key st.store })
      | JsTtl.num t =>
        if expiredAt t now then
          Except.ok (none, st)
        else if rejects cfg item.value then
          Except.ok (none, { st with store := eraseKey key st.store })
        else
          match item.value with
          | none => Except.ok (none, { st with store := eraseKey key st.store })
          | some v => Except.ok (some v, st)
  else
    Except.error CacheError.closed

/-- Translation of remove: closed check, then unconditional delete. -/
def removeOp {K V : Type} [DecidableEq K] (st : CacheState K V) (key : K) :
    Except CacheError (CacheState K V) :=
  if st.dbOpen then
    Except.ok { st with store := eraseKey key st.store }
  else
    Except.error CacheError.closed

/-- Translation of clear: closed check, then remove all records. -/
def clearOp {K V : Type} (st : CacheState K V) :
    Except CacheError (CacheState K V) :=
  if st.dbOpen then
    Except.ok { st with store := [] }
  else
    Except.error CacheError.closed

/-- Translation of count: closed check, then the raw number of stored
keys (getAllKeys().length), with no expiry filtering. -/
def countOp {K V : Type} (st : CacheState K V) : Except CacheError Nat :=
  if st.dbOpen then
    Except.ok st.store.length
  else
    Except.error CacheError.closed

/-- Translation of the snapshot taken by entries: closed check, then the
full key list captured at call time. -/
def entriesSnapshot {K V : Type} (st : CacheState K V) :
    Except CacheError (List K) :=
  if st.dbOpen then
    Except.ok (st.store.map Prod.fst)
  else
    Except.error CacheError.closed

/-- Consumption of the iterator returned by entries: the snapshotted
keys are visited in order, each through the public get (so expired or
invalid records are skipped and self-healing deletions thread through
the state); a key whose get resolves null is skipped.  A rejected get
aborts the iteration. -/
def consumeEntries {K V : Type} [DecidableEq K] (cfg : StoreConfig V)
    (now : Int) : List K → CacheState K V → List (K × V)
  | [], _ => []
  | k :: rest, st =>
    match getOp cfg st now k with
    | Except.ok (some v, st1) => (k, v) :: consumeEntries cfg now rest st1
    | Except.ok (none, st1) => consumeEntries cfg now rest st1
    | Except.error _ => []

/-- Translation of close: if the db variable is non-null, null it out;
otherwise do nothing. -/
def closeOp {K V : Type} (st : CacheState K V) : CacheState K V :=
  { st with dbOpen := false }

/-- Abstract engine state seen by initDB after its initial open: the
database schema version and the names of the existing object stores
(names abstracted to Nat). -/
structure DBState where
  version : Nat
  stores : List Nat
deriving DecidableEq, Repr

/-- Observable path taken by initDB after the initial open. -/
inductive InitAction where
  | alreadyPresent
  | corruptionHandler (version : Nat)
  | destructiveReset
  | versionBump (version : Nat)
deriving DecidableEq, Repr

/-- Translation of the decision logic of initDB: if the requested store
exists, return the handle; otherwise compute version as the number of
existing stores plus one; if that is strictly below the current db
version, delegate to the corruption handler when supplied and otherwise
close, delete the database and reopen at version 1; otherwise close and
reopen at the computed version with the store created. -/
def initDBAction (db : DBState) (storeName : Nat) (hasCorrupted : Bool) :
    InitAction :=
  if storeName ∈ db.stores then
    InitAction.alreadyPresent
  else
    let version := db.stores.length + 1
    if version < db.version then
      if hasCorrupted then InitAction.corruptionHandler version
      else InitAction.destructiveReset
    else
      InitAction.versionBump version

/-- Plain configuration used in concrete instances: no validator, no
default TTL. -/
def cfgPlain : StoreConfig Nat := ⟨none, none⟩

/-- Empty open collection state over Nat keys and Nat values. -/
def stEmpty : CacheState Nat Nat := ⟨true, []⟩

instance {ε α : Type} [DecidableEq ε] [DecidableEq α] :
    DecidableEq (Except ε α) := fun a b =>
  match a, b with
  | Except.error e, Except.error f =>
    if h : e = f then isTrue (congrArg Except.error h)
    else isFalse (fun hc => h (Except.error.inj hc))
  | Except.ok x, Except.ok y =>
    if h : x = y then isTrue (congrArg Except.ok h)
    else isFalse (fun hc => h (Except.ok.inj hc))
  | Except.error _, Except.ok _ => isFalse (fun hc => Except.noConfusion hc)
  | Except.ok _, Except.error _ => isFalse (fun hc => Except.noConfusion hc)

/-- Looking a key up after erasing it and appending a tail skips the
erased portion. -/
theorem lookupItem_eraseKey_append {K V : Type} [DecidableEq K] (key : K)
    (s l : List (K × CacheStoreItem V)) :
    lookupItem key (eraseKey key s ++ l) = lookupItem key l := by
  induction s with
  | nil => simp [eraseKey]
  | cons p rest ih =>
    obtain ⟨k, it⟩ := p
    by_cases h : k = key
    · simp [eraseKey, h, ih]
    · simp [eraseKey, h, lookupItem, ih]

/-- A put record is found by a subsequent lookup. -/
theorem lookupItem_putItem_self {K V : Type} [DecidableEq K] (key : K)
    (item : CacheStoreItem V) (s : List (K × CacheStoreItem V)) :
    lookupItem key (putItem key item s) = some item := by
  simp [putItem, lookupItem_eraseKey_append, lookupItem]

/-- An erased key is no longer found. -/
theorem lookupItem_eraseKey_self {K V : Type} [DecidableEq K] (key : K)
    (s : List (K × CacheStoreItem V)) :
    lookupItem key (eraseKey key s) = none := by
  have h := lookupItem_eraseKey_append key s ([] : List (K × CacheStoreItem V))
  simpa [lookupItem] using h

/-- C1 (counterexample): with set at time 0 and TTL duration 5, a get at
time 5 — exactly 5 ms elapsed, hence at least 5 ms — still returns the
stored value rather than null, because the read-path expiry comparison
is strict (ttl < now). -/
theorem expiry_boundary_counterexample :
    setOp cfgPlain stEmpty 0 1 (some 42) (some (TtlInput.num 5)) =
      Except.ok ⟨true, [(1, ⟨some 42, JsTtl.num 5⟩)]⟩ ∧
    getOp cfgPlain ⟨true, [(1, ⟨some 42, JsTtl.num 5⟩)]⟩ 5 1 =
      Except.ok (some 42, ⟨true, [(1, ⟨some 42, JsTtl.num 5⟩)]⟩) ∧
    ((Except.ok (some 42, ⟨true, [(1, ⟨some 42, JsTtl.num 5⟩)]⟩) :
        Except CacheError (Option Nat × CacheState Nat Nat)) ≠
      Except.ok (none, ⟨true, [(1, ⟨some 42, JsTtl.num 5⟩)]⟩)) := by
  refine ⟨by decide, by decide, by decide⟩

/-- C1 (amended): for any key, non-null value accepted by the validator
and duration d > 0, set followed by an immediate get returns the value,
and a get after strictly more than d ms have elapsed returns null (at
exactly d elapsed the value is still returned). -/
theorem set_get_roundtrip_ttl {K V : Type} [DecidableEq K]
    (cfg : StoreConfig V) (st : CacheState K V) (now d e : Int) (k : K)
    (v : V) (hopen : st.dbOpen = true) (hnow : 0 ≤ now) (hd : 0 < d)
    (hval : rejects cfg (some v) = false) :
    ∃ st1, setOp cfg st now k (some v) (some (TtlInput.num d)) = Except.ok st1 ∧
      getOp cfg st1 now k = Except.ok (some v, st1) ∧
      (d < e → getOp cfg st1 (now + e) k = Except.ok (none, st1)) := by
  refine ⟨{ st with store := putItem k ⟨some v, JsTtl.num (now + d)⟩ st.store },
    ?_, ?_, ?_⟩
  · simp [setOp, formatTtl, show ¬ d < 0 by omega, hopen]
  · simp [getOp, hopen, lookupItem_putItem_self, expiredAt,
      show ¬ now + d < now by omega, hval]
  · intro he
    simp [getOp, hopen, lookupItem_putItem_self, expiredAt,
      show (0:Int) ≤ now + d by omega, show now + d < now + e by omega]

/-- C1 witness at concrete inputs: key 1, value 42, duration 5, read at
elapsed 7 > 5. -/
theorem set_get_roundtrip_ttl_witness :
    ∃ st1, setOp cfgPlain stEmpty 0 1 (some 42) (some (TtlInput.num 5)) =
        Except.ok st1 ∧
      getOp cfgPlain st1 0 1 = Except.ok (some 42, st1) ∧
      ((5:Int) < 7 → getOp cfgPlain st1 (0 + 7) 1 = Except.ok (none, st1)) :=
  set_get_roundtrip_ttl cfgPlain stEmpty 0 5 7 1 42 rfl (by decide) (by decide)
    rfl

/-- C2: the read path treats a numeric ttl as expired exactly when it is
non-negative and below the current time; a negative ttl is never
expired, and setting with the sentinel -1 stores -1 verbatim so a get at
any later time still returns the value. -/
theorem negative_ttl_never_expires {K V : Type} [DecidableEq K]
    (cfg : StoreConfig V) (st : CacheState K V) (now now2 t : Int) (k : K)
    (v : V) (hopen : st.dbOpen = true) (hval : rejects cfg (some v) = false)
    (ht : t < 0) :
    expiredAt t now2 = false ∧
    (∀ u : Int, expiredAt u now2 = true ↔ 0 ≤ u ∧ u < now2) ∧
    ∃ st1, setOp cfg st now k (some v) (some (TtlInput.num (-1))) =
        Except.ok st1 ∧
      lookupItem k st1.store = some ⟨some v, JsTtl.num (-1)⟩ ∧
      getOp cfg st1 now2 k = Except.ok (some v, st1) := by
  refine ⟨by simp [expiredAt, show ¬ (0:Int) ≤ t by omega], ?_, ?_⟩
  · intro u; simp [expiredAt]
  refine ⟨{ st with store := putItem k ⟨some v, JsTtl.num (-1)⟩ st.store },
    ?_, ?_, ?_⟩
  · simp [setOp, formatTtl, hopen]
  · simp [lookupItem_putItem_self]
  · simp [getOp, hopen, lookupItem_putItem_self, expiredAt, hval]

/-- C2 witness at concrete inputs: sentinel -1 written at time 0 and
read at time 1000000. -/
theorem negative_ttl_never_expires_witness :
    expiredAt (-5) 1000000 = false ∧
    (∀ u : Int, expiredAt u 1000000 = true ↔ 0 ≤ u ∧ u < 1000000) ∧
    ∃ st1, setOp cfgPlain stEmpty 0 1 (some 42) (some (TtlInput.num (-1))) =
        Except.ok st1 ∧
      lookupItem 1 st1.store = some ⟨some 42, JsTtl.num (-1)⟩ ∧
      getOp cfgPlain st1 1000000 1 = Except.ok (some 42, st1) :=
  negative_ttl_never_expires cfgPlain stEmpty 0 1000000 (-5) 1 42 rfl rfl
    (by decide)

/-- Concrete state holding one record whose ttl field is not a number. -/
def stNotNum : CacheState Nat Nat := ⟨true, [(1, ⟨some 42, JsTtl.notNum⟩)]⟩

/-- The record stored in stNotNum. -/
def itemNotNum : CacheStoreItem Nat := ⟨some 42, JsTtl.notNum⟩

/-- C3 (counterexample): a get that finds an expired record (ttl 3 read
at time 10) resolves null but leaves the record in place, so a
subsequent count still reports 1, not 0 — the expired case does not
delete, contrary to the claim that every validation failure deletes the
record. -/
theorem expired_record_not_deleted_counterexample :
    getOp cfgPlain ⟨true, [(1, ⟨some 42, JsTtl.num 3⟩)]⟩ 10 1 =
      Except.ok (none, ⟨true, [(1, ⟨some 42, JsTtl.num 3⟩)]⟩) ∧
    countOp (⟨true, [(1, ⟨some 42, JsTtl.num 3⟩)]⟩ : CacheState Nat Nat) =
      Except.ok 1 ∧
    ((Except.ok 1 : Except CacheError Nat) ≠ Except.ok 0) := by
  refine ⟨by decide, by decide, by decide⟩

/-- C3 (amended): get validates a found record in the order (a) ttl not
numeric, (b) ttl non-negative and in the past, (c) validator rejects,
(d) value null/undefined; each failure resolves null rather than an
error, and cases (a), (c) and (d) delete the record (absent from a
subsequent lookup and hence from count), while case (b) leaves the
record in place. -/
theorem get_validation_order {K V : Type} [DecidableEq K]
    (cfg : StoreConfig V) (st : CacheState K V) (now : Int) (k : K)
    (item : CacheStoreItem V) (hopen : st.dbOpen = true)
    (hlook : lookupItem k st.store = some item) :
    (item.ttl = JsTtl.notNum →
      getOp cfg st now k =
        Except.ok (none, { st with store := eraseKey k st.store })) ∧
    (∀ t, item.ttl = JsTtl.num t → expiredAt t now = true →
      getOp cfg st now k = Except.ok (none, st)) ∧
    (∀ t, item.ttl = JsTtl.num t → expiredAt t now = false →
      rejects cfg item.value = true →
      getOp cfg st now k =
        Except.ok (none, { st with store := eraseKey k st.store })) ∧
    (∀ t, item.ttl = JsTtl.num t → expiredAt t now = false →
      rejects cfg item.value = false → item.value = none →
      getOp cfg st now k =
        Except.ok (none, { st with store := eraseKey k st.store })) ∧
    lookupItem k (eraseKey k st.store) = none := by
  refine ⟨?_, ?_, ?_, ?_, lookupItem_eraseKey_self k st.store⟩
  · intro h
    simp [getOp, hopen, hlook, h]
  · intro t ht hexp
    simp [getOp, hopen, hlook, ht, hexp]
  · intro t ht hexp hrej
    simp [getOp, hopen, hlook, ht, hexp, hrej]
  · intro t ht hexp hrej hv
    simp [getOp, hopen, hlook, ht, hexp, hrej, hv]

/-- C3 witness at a concrete input: the non-numeric-ttl record of
stNotNum. -/
theorem get_validation_order_witness :
    (itemNotNum.ttl = JsTtl.notNum →
      getOp cfgPlain stNotNum 10 1 =
        Except.ok (none, { stNotNum with store := eraseKey 1 stNotNum.store })) ∧
    (∀ t, itemNotNum.ttl = JsTtl.num t → expiredAt t 10 = true →
      getOp cfgPlain stNotNum 10 1 = Except.ok (none, stNotNum)) ∧
    (∀ t, itemNotNum.ttl = JsTtl.num t → expiredAt t 10 = false →
      rejects cfgPlain itemNotNum.value = true →
      getOp cfgPlain stNotNum 10 1 =
        Except.ok (none, { stNotNum with store := eraseKey 1 stNotNum.store })) ∧
    (∀ t, itemNotNum.ttl = JsTtl.num t → expiredAt t 10 = false →
      rejects cfgPlain itemNotNum.value = false → itemNotNum.value = none →
      getOp cfgPlain stNotNum 10 1 =
        Except.ok (none, { stNotNum with store := eraseKey 1 stNotNum.store })) ∧
    lookupItem 1 (eraseKey 1 stNotNum.store) = none :=
  get_validation_order cfgPlain stNotNum 10 1 itemNotNum rfl rfl

/-- C4 (counterexample): on a closed handle, set with no resolvable TTL
rejects with the no-TTL configuration error, not the closed-connection
error, because the TTL check precedes the closed check. -/
theorem closed_set_no_ttl_counterexample :
    setOp cfgPlain (closeOp stEmpty) 0 1 (some 42) none =
      Except.error CacheError.noTtl ∧
    ((Except.error CacheError.noTtl : Except CacheError (CacheState Nat Nat)) ≠
      Except.error CacheError.closed) := by
  refine ⟨by decide, by decide⟩

/-- C4 (amended): after close, get/remove/clear/count/entries each fail
with the closed-connection error before touching the store, set fails
with the closed-connection error whenever a TTL is resolvable (and with
the configuration error otherwise), and closing twice equals closing
once. -/
theorem closed_operations {K V : Type} [DecidableEq K] (cfg : StoreConfig V)
    (st : CacheState K V) (now : Int) (k : K) (v : Option V)
    (ttl : Option TtlInput) (t : Int) :
    getOp cfg (closeOp st) now k = Except.error CacheError.closed ∧
    removeOp (closeOp st) k = Except.error CacheError.closed ∧
    clearOp (closeOp st) = Except.error CacheError.closed ∧
    countOp (closeOp st) = Except.error CacheError.closed ∧
    entriesSnapshot (closeOp st) = Except.error CacheError.closed ∧
    (formatTtl now [ttl, cfg.defaultTtl] = some t →
      setOp cfg (closeOp st) now k v ttl = Except.error CacheError.closed) ∧
    closeOp (closeOp st) = closeOp st := by
  refine ⟨?_, ?_, ?_, ?_, ?_, ?_, rfl⟩
  · simp [getOp, closeOp]
  · simp [removeOp, closeOp]
  · simp [clearOp, closeOp]
  · simp [countOp, closeOp]
  · simp [entriesSnapshot, closeOp]
  · intro h
    simp [setOp, closeOp, h]

/-- C4 witness at concrete inputs: TTL duration 0 resolves to instant
100 at time 100, and the closed handle rejects with the closed error. -/
theorem closed_operations_witness :
    getOp cfgPlain (closeOp stEmpty) 100 1 = Except.error CacheError.closed ∧
    removeOp (closeOp stEmpty) 1 = Except.error CacheError.closed ∧
    clearOp (closeOp stEmpty) = Except.error CacheError.closed ∧
    countOp (closeOp stEmpty) = Except.error CacheError.closed ∧
    entriesSnapshot (closeOp stEmpty) = Except.error CacheError.closed ∧
    (formatTtl 100 [some (TtlInput.num 0), cfgPlain.defaultTtl] = some 100 →
      setOp cfgPlain (closeOp stEmpty) 100 1 (some 42) (some (TtlInput.num 0)) =
        Except.error CacheError.closed) ∧
    closeOp (closeOp stEmpty) = closeOp stEmpty :=
  closed_operations cfgPlain stEmpty 100 1 (some 42) (some (TtlInput.num 0))
    100

/-- Engine state with version 3 but a single store, used to exercise the
corruption branch of initDB. -/
def dbCorrupt : DBState := ⟨3, [7]⟩

/-- C5 (counterexample): with one existing store and version 2, the
expected next version is 2, so the current version is not behind it;
the claim places this in the corruption path, but initDB takes the
normal close-and-reopen path (the corruption branch requires the current
version to be strictly greater than the expected next version). -/
theorem init_version_equal_counterexample :
    ¬ ((⟨2, [7]⟩ : DBState).version <
        (⟨2, [7]⟩ : DBState).stores.length + 1) ∧
    initDBAction ⟨2, [7]⟩ 5 true = InitAction.versionBump 2 ∧
    initDBAction ⟨2, [7]⟩ 5 false = InitAction.versionBump 2 ∧
    (InitAction.versionBump 2 ≠ InitAction.corruptionHandler 2) ∧
    (InitAction.versionBump 2 ≠ InitAction.destructiveReset) := by
  refine ⟨by decide, by decide, by decide, by decide, by decide⟩

/-- C5 (amended): after the initial open, a present store returns the
handle immediately; a missing store with the current version strictly
greater than the expected next version (existing store count + 1) takes
the corruption path — delegating to the supplied handler with the
computed version, else closing, deleting the cache and reopening fresh;
a missing store whose current version is not strictly greater reopens
at the expected next version with the store created. -/
theorem initDB_paths (db : DBState) (s : Nat) (hc : Bool) :
    (s ∈ db.stores → initDBAction db s hc = InitAction.alreadyPresent) ∧
    (s ∉ db.stores → db.stores.length + 1 < db.version →
      initDBAction db s true =
        InitAction.corruptionHandler (db.stores.length + 1) ∧
      initDBAction db s false = InitAction.destructiveReset) ∧
    (s ∉ db.stores → ¬ (db.stores.length + 1 < db.version) →
      initDBAction db s hc = InitAction.versionBump (db.stores.length + 1)) := by
  refine ⟨?_, ?_, ?_⟩
  · intro h
    simp [initDBAction, h]
  · intro h hv
    constructor <;> simp [initDBAction, h, hv]
  · intro h hv
    simp [initDBAction, h, hv]

/-- C5 witness at a concrete input: version 3 with one store, requesting
a missing store. -/
theorem initDB_paths_witness :
    ((5:Nat) ∈ dbCorrupt.stores →
      initDBAction dbCorrupt 5 true = InitAction.alreadyPresent) ∧
    ((5:Nat) ∉ dbCorrupt.stores →
      dbCorrupt.stores.length + 1 < dbCorrupt.version →
      initDBAction dbCorrupt 5 true =
        InitAction.corruptionHandler (dbCorrupt.stores.length + 1) ∧
      initDBAction dbCorrupt 5 false = InitAction.destructiveReset) ∧
    ((5:Nat) ∉ dbCorrupt.stores →
      ¬ (dbCorrupt.stores.length + 1 < dbCorrupt.version) →
      initDBAction dbCorrupt 5 true =
        InitAction.versionBump (dbCorrupt.stores.length + 1)) :=
  initDB_paths dbCorrupt 5 true

/-- C6 (counterexample): with a collection default of the number 0 and a
cache-level default of -1, the resolution uses the cache-level default
(0 is falsy in the JavaScript || used to combine them), so a set at time
1000 with no per-call TTL stores -1, not the collection default's
1000 + 0 demanded by the claim. -/
theorem default_ttl_zero_counterexample :
    storeDefault (some (TtlInput.num 0)) (some (TtlInput.num (-1))) =
      some (TtlInput.num (-1)) ∧
    formatTtl 1000 [none,
      storeDefault (some (TtlInput.num 0)) (some (TtlInput.num (-1)))] =
      some (-1) ∧
    ((some (-1) : Option Int) ≠ some (1000 + 0)) := by
  refine ⟨by decide, by decide, by decide⟩

/-- C6 (amended): the per-call TTL is evaluated before the store
default, where the store default is the collection default when that is
truthy (a Date or a non-zero number) and the cache-level default
otherwise; for the first value present a Date yields its absolute
instant, a non-negative number yields now + duration, and a negative
number is returned unchanged; when nothing is present the resolution is
undefined and set rejects with the configuration error. -/
theorem ttl_resolution {K V : Type} [DecidableEq K]
    (collOpt cacheOpt : Option TtlInput) (now t n : Int)
    (rest : List (Option TtlInput)) (f : Option (Option V → Bool))
    (st : CacheState K V) (k : K) (v : Option V) :
    (ttlTruthy collOpt = true → storeDefault collOpt cacheOpt = collOpt) ∧
    (ttlTruthy collOpt = false → storeDefault collOpt cacheOpt = cacheOpt) ∧
    formatTtl now (some (TtlInput.date t) :: rest) = some t ∧
    (0 ≤ n → formatTtl now (some (TtlInput.num n) :: rest) = some (now + n)) ∧
    (n < 0 → formatTtl now (some (TtlInput.num n) :: rest) = some n) ∧
    formatTtl now (none :: rest) = formatTtl now rest ∧
    formatTtl now ([] : List (Option TtlInput)) = none ∧
    setOp ⟨f, storeDefault none none⟩ st now k v none =
      Except.error CacheError.noTtl := by
  refine ⟨?_, ?_, rfl, ?_, ?_, rfl, rfl, ?_⟩
  · intro h
    simp [storeDefault, h]
  · intro h
    simp [storeDefault, h]
  · intro h
    simp [formatTtl, show ¬ n < 0 by omega]
  · intro h
    simp [formatTtl, h]
  · simp [setOp, storeDefault, ttlTruthy, formatTtl]

/-- C6 witness at concrete inputs: collection default 3 (truthy),
cache-level default -1, per-call values exercised at time 10. -/
theorem ttl_resolution_witness :
    (ttlTruthy (some (TtlInput.num 3)) = true →
      storeDefault (some (TtlInput.num 3)) (some (TtlInput.num (-1))) =
        some (TtlInput.num 3)) ∧
    (ttlTruthy (some (TtlInput.num 3)) = false →
      storeDefault (some (TtlInput.num 3)) (some (TtlInput.num (-1))) =
        some (TtlInput.num (-1))) ∧
    formatTtl 10 (some (TtlInput.date 99) :: []) = some 99 ∧
    ((0:Int) ≤ 4 → formatTtl 10 (some (TtlInput.num 4) :: []) = some (10 + 4)) ∧
    ((4:Int) < 0 → formatTtl 10 (some (TtlInput.num 4) :: []) = some 4) ∧
    formatTtl 10 (none :: []) = formatTtl 10 [] ∧
    formatTtl 10 ([] : List (Option TtlInput)) = none ∧
    setOp ⟨none, storeDefault none none⟩ stEmpty 10 1 (some 42) none =
      Except.error CacheError.noTtl :=
  ttl_resolution (some (TtlInput.num 3)) (some (TtlInput.num (-1))) 10 99 4
    [] none stEmpty 1 (some 42)

/-- Keys yielded while consuming an entries iterator form a sublist of
the snapshotted key list, whatever state the underlying gets run
against. -/
theorem consumeEntries_keys_sublist {K V : Type} [DecidableEq K]
    (cfg : StoreConfig V) (now : Int) :
    ∀ (snap : List K) (st : CacheState K V),
      ((consumeEntries cfg now snap st).map Prod.fst).Sublist snap := by
  intro snap
  induction snap with
  | nil =>
    intro st
    simp [consumeEntries]
  | cons k rest ih =>
    intro st
    cases h : getOp cfg st now k with
    | error e =>
      simp [consumeEntries, h]
    | ok p =>
      obtain ⟨v?, st1⟩ := p
      cases v? with
      | none =>
        simpa [consumeEntries, h] using List.Sublist.cons k (ih st1)
      | some v =>
        simpa [consumeEntries, h] using List.Sublist.cons₂ k (ih st1)

/-- State with one live never-expiring record under key 1. -/
def stOne : CacheState Nat Nat := ⟨true, [(1, ⟨some 10, JsTtl.num (-1)⟩)]⟩

/-- State with the record of stOne plus a later insertion under key 2. -/
def stTwo : CacheState Nat Nat :=
  ⟨true, [(1, ⟨some 10, JsTtl.num (-1)⟩), (2, ⟨some 20, JsTtl.num (-1)⟩)]⟩

/-- C7: entries snapshots the key list at call time; consuming the
iterator against any later state yields keys forming a sublist of the
snapshot (snapshot order, nulls skipped), at most as many pairs as
records at snapshot time, and never a key outside the snapshot — in
particular never a key inserted after the call. -/
theorem entries_snapshot_semantics {K V : Type} [DecidableEq K]
    (cfg : StoreConfig V) (now : Int) (st0 st1 : CacheState K V)
    (h0 : st0.dbOpen = true) :
    ∃ snap, entriesSnapshot st0 = Except.ok snap ∧
      ((consumeEntries cfg now snap st1).map Prod.fst).Sublist snap ∧
      (consumeEntries cfg now snap st1).length ≤ st0.store.length ∧
      ∀ k, k ∉ snap → ∀ v, (k, v) ∉ consumeEntries cfg now snap st1 := by
  refine ⟨st0.store.map Prod.fst, by simp [entriesSnapshot, h0], ?_, ?_, ?_⟩
  · exact consumeEntries_keys_sublist cfg now _ st1
  · have h :=
      (consumeEntries_keys_sublist cfg now (st0.store.map Prod.fst)
        st1).length_le
    simpa using h
  · intro k hk v hv
    apply hk
    have hm : k ∈ (consumeEntries cfg now (st0.store.map Prod.fst)
        st1).map Prod.fst :=
      List.mem_map_of_mem Prod.fst hv
    exact (consumeEntries_keys_sublist cfg now _ st1).subset hm

/-- C7 witness: snapshot over one record, consumed after a second key
has been inserted. -/
theorem entries_snapshot_semantics_witness :
    ∃ snap, entriesSnapshot stOne = Except.ok snap ∧
      ((consumeEntries cfgPlain 0 snap stTwo).map Prod.fst).Sublist snap ∧
      (consumeEntries cfgPlain 0 snap stTwo).length ≤ stOne.store.length ∧
      ∀ k, k ∉ snap → ∀ v, (k, v) ∉ consumeEntries cfgPlain 0 snap stTwo :=
  entries_snapshot_semantics cfgPlain 0 stOne stTwo rfl

/-- C8: set with no per-call TTL and no default anywhere (collection and
cache-level defaults both absent) rejects with the configuration error;
the rejection happens in the branch taken before the store is touched,
so the collection contents are unchanged. -/
theorem set_no_ttl_rejects {K V : Type} [DecidableEq K]
    (f : Option (Option V → Bool)) (st : CacheState K V) (now : Int)
    (k : K) (v : Option V) :
    setOp ⟨f, storeDefault none none⟩ st now k v none =
      Except.error CacheError.noTtl := by
  simp [setOp, storeDefault, ttlTruthy, formatTtl]

/-- C9 (counterexample): set performs no null check on the value, so a
null (none) value is persisted verbatim — the stored record after the
call has a null value field, refuting the claim that no operation ever
persists such a record. -/
theorem set_persists_null_counterexample :
    setOp cfgPlain stEmpty 0 1 none (some (TtlInput.num 5)) =
      Except.ok ⟨true, [(1, ⟨none, JsTtl.num 5⟩)]⟩ ∧
    lookupItem 1 [(1, (⟨none, JsTtl.num 5⟩ : CacheStoreItem Nat))] =
      some ⟨none, JsTtl.num 5⟩ ∧
    ((⟨none, JsTtl.num 5⟩ : CacheStoreItem Nat).value = none) := by
  refine ⟨by decide, by decide, by decide⟩

/-- C9 (amended): set persists the supplied value verbatim, with no
guard against null, so a null value can reach the store; the invariant
is enforced only on the read path, where a record whose stored value is
null/undefined is treated as corrupted and evicted by the get that
encounters it. -/
theorem value_persisted_verbatim {K V : Type} [DecidableEq K]
    (cfg : StoreConfig V) (st : CacheState K V) (now d : Int) (k : K)
    (value : Option V) (hopen : st.dbOpen = true) (hd : 0 ≤ d) :
    ∃ st1, setOp cfg st now k value (some (TtlInput.num d)) = Except.ok st1 ∧
      lookupItem k st1.store = some ⟨value, JsTtl.num (now + d)⟩ ∧
      (value = none → rejects cfg none = false →
        getOp cfg st1 now k =
          Except.ok (none, { st1 with store := eraseKey k st1.store }) ∧
        lookupItem k (eraseKey k st1.store) = none) := by
  refine ⟨{ st with store := putItem k ⟨value, JsTtl.num (now + d)⟩ st.store },
    ?_, lookupItem_putItem_self k ⟨value, JsTtl.num (now + d)⟩ st.store, ?_⟩
  · simp [setOp, formatTtl, show ¬ d < 0 by omega, hopen]
  · intro hv hrej
    constructor
    · simp [getOp, hopen, lookupItem_putItem_self, expiredAt,
        show ¬ now + d < now by omega, hv, hrej]
    · exact lookupItem_eraseKey_self k _

/-- C9 witness at concrete inputs: a null value stored under key 1 with
duration 5 at time 0, then read back at time 0. -/
theorem value_persisted_verbatim_witness :
    ∃ st1, setOp cfgPlain stEmpty 0 1 none (some (TtlInput.num 5)) =
        Except.ok st1 ∧
      lookupItem 1 st1.store = some ⟨none, JsTtl.num (0 + 5)⟩ ∧
      ((none : Option Nat) = none → rejects cfgPlain none = false →
        getOp cfgPlain st1 0 1 =
          Except.ok (none, { st1 with store := eraseKey 1 st1.store }) ∧
        lookupItem 1 (eraseKey 1 st1.store) = none) :=
  value_persisted_verbatim cfgPlain stEmpty 0 5 1 none rfl (by decide)

/-- C10: in set the TTL resolution precedes the closed check — on a
closed handle, an unresolvable TTL rejects with the configuration error,
and the closed-connection error is reported only when a TTL resolved. -/
theorem set_ttl_check_precedes_closed {K V : Type} [DecidableEq K]
    (cfg : StoreConfig V) (st : CacheState K V) (now : Int) (k : K)
    (v : Option V) (ttl : Option TtlInput) (hclosed : st.dbOpen = false) :
    (formatTtl now [ttl, cfg.defaultTtl] = none →
      setOp cfg st now k v ttl = Except.error CacheError.noTtl) ∧
    ∀ t, formatTtl now [ttl, cfg.defaultTtl] = some t →
      setOp cfg st now k v ttl = Except.error CacheError.closed := by
  constructor
  · intro h
    simp [setOp, h]
  · intro t h
    simp [setOp, h, hclosed]

/-- C10 witness: a closed empty handle with no TTL anywhere. -/
theorem set_ttl_check_precedes_closed_witness :
    (formatTtl 0 [none, cfgPlain.defaultTtl] = none →
      setOp cfgPlain (closeOp stEmpty) 0 1 (some 42) none =
        Except.error CacheError.noTtl) ∧
    ∀ t, formatTtl 0 [none, cfgPlain.defaultTtl] = some t →
      setOp cfgPlain (closeOp stEmpty) 0 1 (some 42) none =
        Except.error CacheError.closed :=
  set_ttl_check_precedes_closed cfgPlain (closeOp stEmpty) 0 1 (some 42)
    none rfl

end IndexDBCache
